import Mathlib

/-!
Verification of the serverless message wall backend.

The development shallowly embeds the two Lambda handlers of the repository:

* `src/app/api-handler/handler.py` (the Ingest Handler), embedded as
  `MessageWall.apiHandler`, and
* `src/app/snapshot-writer/handler.py` (the Snapshot Builder), embedded as
  `MessageWall.snapshotHandler`.

External collaborators (DynamoDB, EventBridge, S3) are modelled as explicit
state and effect traces: the DynamoDB table is a `Store` value, performed
calls are recorded in a trace, and fallibility of each external call is an
explicit boolean outcome supplied to the handler.  Python exceptions that
escape a handler are modelled with `Except`.
-/

namespace MessageWall

/-- Python values produced by `json.loads`: the JSON data model. -/
inductive Json where
  | null
  | bool (b : Bool)
  | num (n : Int)
  | str (s : String)
  | arr (elems : List Json)
  | obj (fields : List (String × Json))
deriving Repr

/-- Python exceptions that can escape a handler uncaught. -/
inductive PyError where
  | attributeError
deriving DecidableEq, Repr

/-- Result of the body returned by the helper `response(status_code, body)` in
`api-handler/handler.py`: either a raw string passed through unchanged, or a
dict that `json.dumps` would serialize.  We keep the pre-serialization value. -/
inductive RespBody where
  | raw (s : String)
  | dict (fields : List (String × Json))
deriving Repr

/-- Embedding of `response(status_code, body)` from `api-handler/handler.py`:
a status code, a fixed `Content-Type: application/json` header, and the body. -/
structure HttpResponse where
  statusCode : Nat
  contentType : String
  body : RespBody
deriving Repr

/-- The helper `response` of `api-handler/handler.py`. -/
def response (statusCode : Nat) (body : RespBody) : HttpResponse :=
  { statusCode := statusCode, contentType := "application/json", body := body }

/-- Whitespace as stripped by Python `str.strip()`: the code points for
which `Py_UNICODE_ISSPACE` holds — 0x09-0x0D, 0x1C-0x1F, 0x20, 0x85 (NEL),
0xA0 (NBSP), 0x1680, 0x2000-0x200A, 0x2028, 0x2029, 0x202F, 0x205F and
0x3000. -/
def pyIsSpace (c : Char) : Bool :=
  let n := c.toNat
  (9 ≤ n && n ≤ 13) || (28 ≤ n && n ≤ 31) || n = 32 || n = 133 || n = 160 ||
  n = 5760 || (8192 ≤ n && n ≤ 8202) || n = 8232 || n = 8233 || n = 8239 ||
  n = 8287 || n = 12288

/-- Embedding of Python `str.strip()`: remove leading and trailing
whitespace. -/
def pyStrip (s : String) : String :=
  (((s.toList.dropWhile pyIsSpace).reverse.dropWhile pyIsSpace).reverse).asString

/-- One item of the `MESSAGE` partition of the DynamoDB table: sort key
`SK = <timestamp>#<id>` plus the attributes `text` and `createdAt`. -/
structure MessageItem where
  sk : String
  text : String
  createdAt : String
deriving DecidableEq, Repr

/-- The DynamoDB table state the two handlers share.  `counter` is the
`messageCount` attribute of the record at `PK = METADATA, SK = METADATA`
(`none` when that record is absent); `messages` are the items of the
`PK = MESSAGE` partition. -/
structure Store where
  counter : Option Int
  messages : List MessageItem
deriving DecidableEq, Repr

/-- Embedding of `table.put_item` on the `MESSAGE` partition: an upsert keyed
by the sort key. -/
def putMessageItem (msgs : List MessageItem) (it : MessageItem) : List MessageItem :=
  (msgs.filter (fun m => m.sk ≠ it.sk)) ++ [it]

/-- External calls performed by the Ingest Handler, in order.  `incrCounter`
is the `update_item` incrementing `messageCount`; `putMessage` is the
`put_item` storing the message; `notify` is the `put_events` EventBridge call
(source `messagewall.api-handler`, detail type `MessagePosted`, detail
payload `messageId` and `timestamp`). -/
inductive Effect where
  | incrCounter
  | putMessage (sk text createdAt : String)
  | notify (source detailType messageId timestamp : String)
deriving DecidableEq, Repr

/-- Whether each of the three external calls of the Ingest Handler succeeds
when attempted (a failed call raises, is caught by the top-level
`except Exception`, and performs no state change). -/
structure EffectOutcomes where
  incrementOk : Bool
  putOk : Bool
  notifyOk : Bool
deriving DecidableEq, Repr

/-- The incoming Lambda event, as far as the handler inspects it:
the HTTP method from `requestContext.http.method` (`none` when absent), and
the outcome of `json.loads` on the (possibly base64-decoded) body.
A missing body defaults to the string `"{}"`, i.e. `Except.ok (Json.obj [])`;
`Except.error ()` covers both a `json.JSONDecodeError` and a base64
`binascii.Error` (a `ValueError` subclass), which the handler catches. -/
structure ApiEvent where
  method : Option String
  bodyParse : Except Unit Json
deriving Repr

/-- The 500 response body of the Ingest Handler. -/
def internalErrBody : RespBody := .dict [("error", .str "Internal server error")]

/-- The happy path of the Ingest Handler after validation has passed
(`handler.py` lines 57-109): build the sort key, then inside the `try` block
increment the counter, store the message, emit the notification, and return
200; any failure is caught and converted to a 500 response, with no rollback
of the effects already performed. -/
def apiHandlerValid (messageText messageId timestamp : String)
    (store : Store) (eff : EffectOutcomes) :
    Except PyError HttpResponse × Store × List Effect :=
  let sortKey := timestamp ++ "#" ++ messageId
  if eff.incrementOk then
    let store1 : Store := { store with counter := some (store.counter.getD 0 + 1) }
    if eff.putOk then
      let store2 : Store :=
        { store1 with
          messages := putMessageItem store1.messages
            { sk := sortKey, text := messageText, createdAt := timestamp } }
      if eff.notifyOk then
        (.ok (response 200 (.dict
            [("success", .bool true), ("messageId", .str messageId),
             ("timestamp", .str timestamp)])),
         store2,
         [.incrCounter, .putMessage sortKey messageText timestamp,
          .notify "messagewall.api-handler" "MessagePosted" messageId timestamp])
      else
        (.ok (response 500 internalErrBody), store2,
         [.incrCounter, .putMessage sortKey messageText timestamp])
    else
      (.ok (response 500 internalErrBody), store1, [.incrCounter])
  else
    (.ok (response 500 internalErrBody), store, [])

/-- Embedding of `handler(event, context)` of `api-handler/handler.py`.
`messageId` and `timestamp` stand for the freshly generated `uuid.uuid4()`
and the formatted current UTC time, supplied by the environment.  Returns the
handler result (`Except.error` when a Python exception escapes uncaught), the
resulting table state, and the trace of performed external calls.

The parse stage (`handler.py` lines 41-48) catches only `json.JSONDecodeError`
and `ValueError`; calling `.get` on a parsed non-dict value, or `.strip()` on
a non-string `text` value, raises an uncaught `AttributeError`. -/
def apiHandler (ev : ApiEvent) (messageId timestamp : String)
    (store : Store) (eff : EffectOutcomes) :
    Except PyError HttpResponse × Store × List Effect :=
  if ev.method = some "OPTIONS" then
    (.ok (response 200 (.raw "")), store, [])
  else if ev.method.getD "" ≠ "POST" then
    (.ok (response 405 (.dict [("error", .str "Method not allowed")])), store, [])
  else
    match ev.bodyParse with
    | .error _ =>
        (.ok (response 400 (.dict [("error", .str "Invalid JSON")])), store, [])
    | .ok body =>
        match body with
        | .obj fields =>
            match fields.lookup "text" with
            | some (.str t) =>
                let messageText := pyStrip t
                if messageText = "" then
                  (.ok (response 400 (.dict [("error", .str "Message text is required")])),
                   store, [])
                else if messageText.length > 500 then
                  (.ok (response 400 (.dict
                      [("error", .str "Message too long (max 500 chars)")])),
                   store, [])
                else
                  apiHandlerValid messageText messageId timestamp store eff
            | some _ => (.error .attributeError, store, [])
            | none =>
                (.ok (response 400 (.dict [("error", .str "Message text is required")])),
                 store, [])
        | _ => (.error .attributeError, store, [])

/-! ### Snapshot Builder (`snapshot-writer/handler.py`) -/

/-- Lexicographic order on lists of characters by code point: the order in
which Python compares strings and in which the ordered store ranks sort keys.
Defined by structural recursion so that the kernel can evaluate it. -/
def charListLe : List Char → List Char → Bool
  | [], _ => true
  | _ :: _, [] => false
  | a :: as, b :: bs =>
    if a.toNat < b.toNat then true
    else if b.toNat < a.toNat then false
    else charListLe as bs

/-- String order used for sort keys (code-point lexicographic). -/
def strLe (s t : String) : Bool := charListLe s.toList t.toList

/-- The descending sort-key order used by the query
(`ScanIndexForward=False`): `a` comes before `b` when `b.sk ≤ a.sk`. -/
def skGE (a b : MessageItem) : Prop := strLe b.sk a.sk = true

instance : DecidableRel skGE := fun a b => by
  unfold skGE; infer_instance

theorem charListLe_total (a b : List Char) :
    charListLe a b = true ∨ charListLe b a = true := by
  induction a generalizing b with
  | nil => left; rfl
  | cons x xs ih =>
    cases b with
    | nil => right; rfl
    | cons y ys =>
      simp only [charListLe]
      rcases Nat.lt_trichotomy x.toNat y.toNat with h | h | h
      · left; simp [h]
      · have h1 : ¬ x.toNat < y.toNat := by omega
        have h2 : ¬ y.toNat < x.toNat := by omega
        rcases ih ys with h3 | h3
        · left; simp [h1, h2, h3]
        · right; simp [h1, h2, h3]
      · right; simp [h]

theorem charListLe_trans {a b c : List Char}
    (hab : charListLe a b = true) (hbc : charListLe b c = true) :
    charListLe a c = true := by
  induction a generalizing b c with
  | nil => rfl
  | cons x xs ih =>
    cases b with
    | nil => exact absurd hab (by simp [charListLe])
    | cons y ys =>
      cases c with
      | nil => exact absurd hbc (by simp [charListLe])
      | cons z zs =>
        simp only [charListLe] at hab hbc ⊢
        by_cases hxy : x.toNat < y.toNat
        · by_cases hyz : y.toNat < z.toNat
          · have : x.toNat < z.toNat := Nat.lt_trans hxy hyz
            simp [this]
          · by_cases hzy : z.toNat < y.toNat
            · simp [hyz, hzy] at hbc
            · have : x.toNat < z.toNat := by omega
              simp [this]
        · by_cases hyx : y.toNat < x.toNat
          · simp [hxy, hyx] at hab
          · by_cases hyz : y.toNat < z.toNat
            · have : x.toNat < z.toNat := by omega
              simp [this]
            · by_cases hzy : z.toNat < y.toNat
              · simp [hyz, hzy] at hbc
              · have h1 : ¬ x.toNat < z.toNat := by omega
                have h2 : ¬ z.toNat < x.toNat := by omega
                rw [if_neg hxy, if_neg hyx] at hab
                rw [if_neg hyz, if_neg hzy] at hbc
                rw [if_neg h1, if_neg h2]
                exact ih hab hbc

instance : IsTotal MessageItem skGE :=
  ⟨fun a b => (charListLe_total b.sk.toList a.sk.toList).elim Or.inl Or.inr⟩

instance : IsTrans MessageItem skGE :=
  ⟨fun _ _ _ hab hbc => charListLe_trans hbc hab⟩

/-- Embedding of the `table.query` of `snapshot-writer/handler.py`
(lines 40-47): the `MESSAGE` partition in descending sort-key order
(`ScanIndexForward=False`), limited to 5 items (`Limit=5`). -/
def queryRecentMessages (s : Store) : List MessageItem :=
  (List.insertionSort skGE s.messages).take 5

/-- Embedding of Python `list.split(sep)` for a one-character separator,
by structural recursion on the character list. -/
def splitChar (sep : Char) : List Char → List (List Char)
  | [] => [[]]
  | c :: cs =>
    if c = sep then [] :: splitChar sep cs
    else
      match splitChar sep cs with
      | [] => [[c]]
      | h :: t => (c :: h) :: t

/-- Embedding of the id extraction of `snapshot-writer/handler.py` line 53:
`sk.split("#")[1] if "#" in sk else sk`.  When the delimiter occurs, the
split has at least two components, so index 1 is in range; `List.getD`
supplies the (unreachable) default. -/
def extractId (sk : String) : String :=
  if '#' ∈ sk.toList then
    ((splitChar '#' sk.toList).getD 1 []).asString
  else sk

/-- One entry of the published `messages` array. -/
structure SnapMessage where
  id : String
  text : String
  createdAt : String
deriving DecidableEq, Repr

/-- The messages the Snapshot Builder publishes for a store state: the query
result, each item reduced to `id` (extracted from the sort key), `text` and
`createdAt` (lines 49-60 of `snapshot-writer/handler.py`). -/
def publishedMessages (s : Store) : List SnapMessage :=
  (queryRecentMessages s).map
    (fun it => { id := extractId it.sk, text := it.text, createdAt := it.createdAt })

/-- Hexadecimal digit used by the `\uXXXX` escapes of `json.dumps`. -/
def hexDigit (n : Nat) : Char :=
  if n < 10 then Char.ofNat (48 + n) else Char.ofNat (87 + n)

/-- Four lowercase hex digits. -/
def hex4 (n : Nat) : String :=
  ⟨[hexDigit (n / 4096 % 16), hexDigit (n / 256 % 16),
    hexDigit (n / 16 % 16), hexDigit (n % 16)]⟩

/-- Escaping of one character inside a JSON string, as done by `json.dumps`
with its default `ensure_ascii=True`. -/
def escapeChar (c : Char) : String :=
  if c = '"' then "\\\""
  else if c = '\\' then "\\\\"
  else if c = '\n' then "\\n"
  else if c = '\t' then "\\t"
  else if c = '\x0d' then "\\r"
  else if c = '\x08' then "\\b"
  else if c = '\x0c' then "\\f"
  else if c.toNat < 32 || c.toNat > 126 then
    if c.toNat ≤ 65535 then "\\u" ++ hex4 c.toNat
    else
      "\\u" ++ hex4 (55296 + (c.toNat - 65536) / 1024) ++
      "\\u" ++ hex4 (56320 + (c.toNat - 65536) % 1024)
  else String.singleton c

/-- A JSON string literal as serialized by `json.dumps`. -/
def jsonStr (s : String) : String :=
  "\"" ++ String.join (s.toList.map escapeChar) ++ "\""

/-- One element of the `messages` array as laid out by
`json.dumps(state, indent=2)` (nested at depth 2). -/
def renderMessage (m : SnapMessage) : String :=
  "    \x7b\n      \"id\": " ++ jsonStr m.id ++
  ",\n      \"text\": " ++ jsonStr m.text ++
  ",\n      \"createdAt\": " ++ jsonStr m.createdAt ++ "\n    \x7d"

/-- The `messages` array as laid out by `json.dumps(state, indent=2)`. -/
def renderMessages : List SnapMessage → String
  | [] => "[]"
  | ms => "[\n" ++ String.intercalate ",\n" (ms.map renderMessage) ++ "\n  ]"

/-- Embedding of `json.dumps(state, indent=2)` for the state object
`\x7b"messageCount": count, "messages": ms\x7d` (insertion key order). -/
def renderState (count : Int) (ms : List SnapMessage) : String :=
  "\x7b\n  \"messageCount\": " ++ toString count ++
  ",\n  \"messages\": " ++ renderMessages ms ++ "\n\x7d"

/-- The `s3.put_object` call of `snapshot-writer/handler.py` (lines 69-75). -/
structure PutObjectCall where
  bucket : String
  key : String
  body : String
  contentType : String
  cacheControl : String
deriving DecidableEq, Repr

/-- The dict returned by the Snapshot Builder on success (lines 79-82). -/
structure SnapReturn where
  statusCode : Nat
  body : List (String × Json)
deriving Repr

/-- Whether each external call of the Snapshot Builder succeeds when
attempted: the `get_item` on the METADATA record, the `query` on the MESSAGE
partition, and the `put_object` to S3. -/
structure SnapshotOutcome where
  getOk : Bool
  queryOk : Bool
  putOk : Bool
deriving DecidableEq, Repr

/-- Default bucket name (`BUCKET_NAME` environment default). -/
def BUCKET_NAME : String := "messagewall-demo-dev"

/-- Embedding of `handler(event, context)` of `snapshot-writer/handler.py`.
The trigger `event` is only printed, never inspected.  Returns the outcome
(`Except.error ()` when an exception was logged and re-raised by the
`except` block; on success the performed `put_object` call and the returned
dict) together with the resulting table state.  The handler only reads the
table, so the resulting state is the input state in every branch. -/
def snapshotHandler (_event : Json) (s : Store) (out : SnapshotOutcome) :
    Except Unit (PutObjectCall × SnapReturn) × Store :=
  if out.getOk then
    let messageCount : Int := s.counter.getD 0
    if out.queryOk then
      let messages := publishedMessages s
      if out.putOk then
        (.ok
          ({ bucket := BUCKET_NAME, key := "state.json",
             body := renderState messageCount messages,
             contentType := "application/json",
             cacheControl := "no-cache, no-store, must-revalidate" },
           { statusCode := 200,
             body := [("success", .bool true), ("messageCount", .num messageCount)] }),
         s)
      else (.error (), s)
    else (.error (), s)
  else (.error (), s)

/-! ### Claim theorems -/

/-- C1: For every POST request whose body parses as a JSON object with a
string `text` field that is non-empty after trimming and at most 500
characters long, with all three external calls succeeding, the Ingest Handler
performs exactly three effects in this order — (a) the atomic increment of
`messageCount` defaulting a missing counter to 0, (b) the point-write of the
message record under sort key `<timestamp>#<id>` with fields `text` and
`createdAt`, (c) exactly one notification carrying the message id and
timestamp — and returns status 200 with body
`\x7bsuccess: true, messageId, timestamp\x7d`. -/
theorem claim1_ingest_success (fields : List (String × Json))
    (t messageId timestamp : String) (store : Store)
    (ht : fields.lookup "text" = some (.str t))
    (hne : pyStrip t ≠ "")
    (hlen : (pyStrip t).length ≤ 500) :
    apiHandler ⟨some "POST", .ok (.obj fields)⟩ messageId timestamp store
        ⟨true, true, true⟩ =
      (.ok (response 200 (.dict
          [("success", .bool true), ("messageId", .str messageId),
           ("timestamp", .str timestamp)])),
       { counter := some (store.counter.getD 0 + 1),
         messages := putMessageItem store.messages
           { sk := timestamp ++ "#" ++ messageId, text := pyStrip t,
             createdAt := timestamp } },
       [.incrCounter,
        .putMessage (timestamp ++ "#" ++ messageId) (pyStrip t) timestamp,
        .notify "messagewall.api-handler" "MessagePosted" messageId timestamp]) := by
  have hgt : ¬ (pyStrip t).length > 500 := by omega
  simp [apiHandler, ht, hne, hgt, apiHandlerValid]

/-- Witness for C1 at a concrete request. -/
theorem claim1_ingest_success_witness :
    apiHandler ⟨some "POST", .ok (.obj [("text", .str " hello ")])⟩
        "m-1" "2025-01-01T00:00:00.000000Z" ⟨none, []⟩ ⟨true, true, true⟩ =
      (.ok (response 200 (.dict
          [("success", .bool true), ("messageId", .str "m-1"),
           ("timestamp", .str "2025-01-01T00:00:00.000000Z")])),
       { counter := some ((none : Option Int).getD 0 + 1),
         messages := putMessageItem []
           { sk := "2025-01-01T00:00:00.000000Z" ++ "#" ++ "m-1",
             text := pyStrip " hello ",
             createdAt := "2025-01-01T00:00:00.000000Z" } },
       [.incrCounter,
        .putMessage ("2025-01-01T00:00:00.000000Z" ++ "#" ++ "m-1")
          (pyStrip " hello ") "2025-01-01T00:00:00.000000Z",
        .notify "messagewall.api-handler" "MessagePosted" "m-1"
          "2025-01-01T00:00:00.000000Z"]) :=
  claim1_ingest_success [("text", .str " hello ")] " hello " "m-1"
    "2025-01-01T00:00:00.000000Z" ⟨none, []⟩ rfl (by decide) (by decide)

/-- C2: the three-step write sequence is not atomic — when the counter
increment succeeds but the point-write or the notification fails, the handler
returns 500 `\x7berror: Internal server error\x7d` while the counter stays
incremented; when the point-write failed, the message list is unchanged, so
the counter is overstated by 1 relative to stored messages. -/
theorem claim2_no_rollback (fields : List (String × Json))
    (t messageId timestamp : String) (store : Store) (eff : EffectOutcomes)
    (ht : fields.lookup "text" = some (.str t))
    (hne : pyStrip t ≠ "")
    (hlen : (pyStrip t).length ≤ 500)
    (hinc : eff.incrementOk = true)
    (hfail : eff.putOk = false ∨ eff.notifyOk = false) :
    (apiHandler ⟨some "POST", .ok (.obj fields)⟩ messageId timestamp store eff).1 =
        .ok (response 500 internalErrBody) ∧
    (apiHandler ⟨some "POST", .ok (.obj fields)⟩ messageId timestamp store eff).2.1.counter =
        some (store.counter.getD 0 + 1) ∧
    (eff.putOk = false →
      (apiHandler ⟨some "POST", .ok (.obj fields)⟩ messageId timestamp store eff).2.1.messages =
        store.messages) := by
  have hgt : ¬ (pyStrip t).length > 500 := by omega
  rcases hfail with hp | hn
  · refine ⟨?_, ?_, ?_⟩ <;>
      simp [apiHandler, ht, hne, hgt, apiHandlerValid, hinc, hp]
  · by_cases hp : eff.putOk = true
    · refine ⟨?_, ?_, ?_⟩ <;>
        simp [apiHandler, ht, hne, hgt, apiHandlerValid, hinc, hp, hn]
    · have hp0 : eff.putOk = false := by
        cases h : eff.putOk
        · rfl
        · exact absurd h hp
      refine ⟨?_, ?_, ?_⟩ <;>
        simp [apiHandler, ht, hne, hgt, apiHandlerValid, hinc, hp0]

/-- Witness for C2 at a concrete request with a failing point-write. -/
theorem claim2_no_rollback_witness :
    (apiHandler ⟨some "POST", .ok (.obj [("text", .str "hi")])⟩ "m" "T"
        ⟨some 3, []⟩ ⟨true, false, true⟩).1 =
      .ok (response 500 internalErrBody) ∧
    (apiHandler ⟨some "POST", .ok (.obj [("text", .str "hi")])⟩ "m" "T"
        ⟨some 3, []⟩ ⟨true, false, true⟩).2.1.counter =
      some ((some (3 : Int)).getD 0 + 1) ∧
    ((false : Bool) = false →
      (apiHandler ⟨some "POST", .ok (.obj [("text", .str "hi")])⟩ "m" "T"
          ⟨some 3, []⟩ ⟨true, false, true⟩).2.1.messages = []) :=
  claim2_no_rollback [("text", .str "hi")] "hi" "m" "T" ⟨some 3, []⟩
    ⟨true, false, true⟩ rfl (by decide) (by decide) rfl (Or.inl rfl)

/-- C5: validation failures of the Ingest Handler.  A POST whose `text` is
empty after trimming (or missing, defaulting to the empty string) yields 400
`Message text is required`; a POST whose trimmed `text` exceeds 500
characters yields 400 `Message too long (max 500 chars)`; a POST whose body
fails JSON parsing or base64 decoding yields 400 `Invalid JSON`.  In all
three cases the store is unchanged and the effect trace is empty (zero Store
calls, zero Notifier calls). -/
theorem claim5_validation_errors (messageId timestamp : String) (store : Store)
    (eff : EffectOutcomes) :
    (∀ fields : List (String × Json),
      (fields.lookup "text" = none ∨
       ∃ t, fields.lookup "text" = some (.str t) ∧ pyStrip t = "") →
      apiHandler ⟨some "POST", .ok (.obj fields)⟩ messageId timestamp store eff =
        (.ok (response 400 (.dict [("error", .str "Message text is required")])),
         store, [])) ∧
    (∀ (fields : List (String × Json)) (t : String),
      fields.lookup "text" = some (.str t) → (pyStrip t).length > 500 →
      apiHandler ⟨some "POST", .ok (.obj fields)⟩ messageId timestamp store eff =
        (.ok (response 400 (.dict
            [("error", .str "Message too long (max 500 chars)")])),
         store, [])) ∧
    (apiHandler ⟨some "POST", .error ()⟩ messageId timestamp store eff =
      (.ok (response 400 (.dict [("error", .str "Invalid JSON")])), store, [])) := by
  refine ⟨?_, ?_, ?_⟩
  · rintro fields (hnone | ⟨t, ht, hempty⟩)
    · simp [apiHandler, hnone]
    · simp [apiHandler, ht, hempty]
  · intro fields t ht hlong
    have hne : ¬ pyStrip t = "" := by
      intro h
      rw [h] at hlong
      simp [String.length] at hlong
    simp [apiHandler, ht, hne, hlong]
  · simp [apiHandler]

set_option maxRecDepth 8000 in
/-- Witness for C5 at concrete requests: a whitespace-only text, an
oversized text, and an unparsable body. -/
theorem claim5_validation_errors_witness :
    (apiHandler ⟨some "POST", .ok (.obj [("text", .str "   ")])⟩ "m" "T"
        ⟨some 2, []⟩ ⟨true, true, true⟩ =
      (.ok (response 400 (.dict [("error", .str "Message text is required")])),
       ⟨some 2, []⟩, [])) ∧
    (apiHandler ⟨some "POST", .ok (.obj
          [("text", .str (String.mk (List.replicate 501 'a')))])⟩ "m" "T"
        ⟨some 2, []⟩ ⟨true, true, true⟩ =
      (.ok (response 400 (.dict
          [("error", .str "Message too long (max 500 chars)")])),
       ⟨some 2, []⟩, [])) ∧
    (apiHandler ⟨some "POST", .error ()⟩ "m" "T" ⟨some 2, []⟩ ⟨true, true, true⟩ =
      (.ok (response 400 (.dict [("error", .str "Invalid JSON")])),
       ⟨some 2, []⟩, [])) :=
  ⟨(claim5_validation_errors "m" "T" ⟨some 2, []⟩ ⟨true, true, true⟩).1
      [("text", .str "   ")] (Or.inr ⟨"   ", rfl, by decide⟩),
   (claim5_validation_errors "m" "T" ⟨some 2, []⟩ ⟨true, true, true⟩).2.1
      [("text", .str (String.mk (List.replicate 501 'a')))]
      (String.mk (List.replicate 501 'a')) rfl (by decide),
   (claim5_validation_errors "m" "T" ⟨some 2, []⟩ ⟨true, true, true⟩).2.2⟩

/-- C6: a request with method OPTIONS gets status 200 with an empty body and
no side effects; a request whose method is neither OPTIONS nor POST
(including an absent method) gets status 405 `Method not allowed` and no
side effects. -/
theorem claim6_method_handling (bodyParse : Except Unit Json)
    (messageId timestamp : String) (store : Store) (eff : EffectOutcomes) :
    (apiHandler ⟨some "OPTIONS", bodyParse⟩ messageId timestamp store eff =
      (.ok (response 200 (.raw "")), store, [])) ∧
    (∀ m : Option String, m ≠ some "OPTIONS" → m ≠ some "POST" →
      apiHandler ⟨m, bodyParse⟩ messageId timestamp store eff =
        (.ok (response 405 (.dict [("error", .str "Method not allowed")])),
         store, [])) := by
  constructor
  · simp [apiHandler]
  · intro m hopt hpost
    have hgetd : m.getD "" ≠ "POST" := by
      cases m with
      | none => decide
      | some v =>
        simpa using fun h => hpost (by simp [h])
    simp [apiHandler, hopt, hgetd]

/-- Witness for C6 at an OPTIONS request, a GET request, and a request with
no method. -/
theorem claim6_method_handling_witness :
    (apiHandler ⟨some "OPTIONS", .error ()⟩ "m" "T" ⟨none, []⟩ ⟨true, true, true⟩ =
      (.ok (response 200 (.raw "")), ⟨none, []⟩, [])) ∧
    (apiHandler ⟨some "GET", .error ()⟩ "m" "T" ⟨none, []⟩ ⟨true, true, true⟩ =
      (.ok (response 405 (.dict [("error", .str "Method not allowed")])),
       ⟨none, []⟩, [])) ∧
    (apiHandler ⟨none, .error ()⟩ "m" "T" ⟨none, []⟩ ⟨true, true, true⟩ =
      (.ok (response 405 (.dict [("error", .str "Method not allowed")])),
       ⟨none, []⟩, [])) :=
  ⟨(claim6_method_handling (.error ()) "m" "T" ⟨none, []⟩ ⟨true, true, true⟩).1,
   (claim6_method_handling (.error ()) "m" "T" ⟨none, []⟩ ⟨true, true, true⟩).2
      (some "GET") (by decide) (by decide),
   (claim6_method_handling (.error ()) "m" "T" ⟨none, []⟩ ⟨true, true, true⟩).2
      none (by decide) (by decide)⟩

/-- C10: a POST whose body parses as valid JSON that is not an object (here a
list and a number), or as an object whose `text` value is not a string (here
a number), makes the Ingest Handler raise an uncaught AttributeError — the
parse-stage handler catches only JSONDecodeError and ValueError — so no HTTP
response is produced. -/
theorem claim10_uncaught_attribute_error :
    (apiHandler ⟨some "POST", .ok (.arr [.num 1, .num 2])⟩ "m" "T" ⟨none, []⟩
        ⟨true, true, true⟩).1 = .error .attributeError ∧
    (apiHandler ⟨some "POST", .ok (.num 7)⟩ "m" "T" ⟨none, []⟩
        ⟨true, true, true⟩).1 = .error .attributeError ∧
    (apiHandler ⟨some "POST", .ok (.obj [("text", .num 3)])⟩ "m" "T" ⟨none, []⟩
        ⟨true, true, true⟩).1 = .error .attributeError := by
  refine ⟨rfl, rfl, rfl⟩

/-- C9: the Snapshot Builder catches no failure — whenever the Store read,
the query or the Publisher write fails, the handler re-raises (there is no
error-result return path); on success it returns status 200 with a body
acknowledging success and carrying the message count. -/
theorem claim9_snapshot_error_propagation (e : Json) (s : Store)
    (o : SnapshotOutcome) :
    (o.getOk = false ∨ o.queryOk = false ∨ o.putOk = false →
      (snapshotHandler e s o).1 = .error ()) ∧
    (o.getOk = true → o.queryOk = true → o.putOk = true →
      ∃ call, (snapshotHandler e s o).1 = .ok (call,
        { statusCode := 200,
          body := [("success", .bool true),
                   ("messageCount", .num (s.counter.getD 0))] })) := by
  constructor
  · intro hfail
    unfold snapshotHandler
    rcases hfail with h | h | h <;> simp [h]
  · intro hg hq hp
    refine ⟨{ bucket := BUCKET_NAME, key := "state.json",
              body := renderState (s.counter.getD 0) (publishedMessages s),
              contentType := "application/json",
              cacheControl := "no-cache, no-store, must-revalidate" }, ?_⟩
    simp [snapshotHandler, hg, hq, hp]

/-- Witness for C9: a failing Publisher write re-raises; an all-successful
run returns the acknowledgment with the count. -/
theorem claim9_snapshot_error_propagation_witness :
    ((false : Bool) = false ∨ (true : Bool) = false ∨ (true : Bool) = false →
      (snapshotHandler .null ⟨some 4, []⟩ ⟨false, true, true⟩).1 = .error ()) ∧
    ((false : Bool) = true → (true : Bool) = true → (true : Bool) = true →
      ∃ call, (snapshotHandler .null ⟨some 4, []⟩ ⟨false, true, true⟩).1 =
        .ok (call,
          { statusCode := 200,
            body := [("success", .bool true),
                     ("messageCount", .num ((some (4 : Int)).getD 0))] })) :=
  claim9_snapshot_error_propagation .null ⟨some 4, []⟩ ⟨false, true, true⟩

/-- The Snapshot Builder only reads the table: every invocation, successful
or failing, leaves the store unchanged. -/
theorem snapshotHandler_reads_only (e : Json) (s : Store) (o : SnapshotOutcome) :
    (snapshotHandler e s o).2 = s := by
  unfold snapshotHandler
  rcases o with ⟨g, q, p⟩
  cases g <;> cases q <;> cases p <;> simp

/-- C7: the Snapshot Builder is idempotent and deterministic with respect to
store state — two successful invocations over the same store, with arbitrary
and possibly different trigger payloads, produce identical results (hence
byte-identical published bodies), and no invocation (successful or not) ever
changes the store. -/
theorem claim7_snapshot_idempotent (e1 e2 : Json) (s : Store)
    (o1 o2 : SnapshotOutcome)
    (h1 : o1 = ⟨true, true, true⟩) (h2 : o2 = ⟨true, true, true⟩) :
    (snapshotHandler e1 s o1).1 = (snapshotHandler e2 s o2).1 ∧
    (∀ (e : Json) (o : SnapshotOutcome), (snapshotHandler e s o).2 = s) := by
  subst h1 h2
  exact ⟨rfl, fun e o => snapshotHandler_reads_only e s o⟩

/-- Witness for C7 at a concrete store and two different trigger events. -/
theorem claim7_snapshot_idempotent_witness :
    (snapshotHandler (.str "trigger-a") ⟨some 1, [⟨"t#u", "hi", "t"⟩]⟩
        ⟨true, true, true⟩).1 =
      (snapshotHandler (.obj [("detail", .null)]) ⟨some 1, [⟨"t#u", "hi", "t"⟩]⟩
        ⟨true, true, true⟩).1 ∧
    (∀ (e : Json) (o : SnapshotOutcome),
      (snapshotHandler e ⟨some 1, [⟨"t#u", "hi", "t"⟩]⟩ o).2 =
        ⟨some 1, [⟨"t#u", "hi", "t"⟩]⟩) :=
  claim7_snapshot_idempotent (.str "trigger-a") (.obj [("detail", .null)])
    ⟨some 1, [⟨"t#u", "hi", "t"⟩]⟩ ⟨true, true, true⟩ ⟨true, true, true⟩ rfl rfl

/-- C3: a successful Snapshot Builder invocation publishes one document —
the serialized (pretty-printed) state whose `messageCount` is the counter
value (0 when the counter record is absent) and whose `messages` are the
query result — under content type `application/json` with a no-cache
directive; the query result holds at most 5 items, is sorted in descending
sort-key order, draws only from the MESSAGE partition, and any stored
message left out has a sort key no larger than every published one. -/
theorem claim3_snapshot_content (e : Json) (s : Store) :
    ∃ call ret,
      (snapshotHandler e s ⟨true, true, true⟩).1 = .ok (call, ret) ∧
      call.key = "state.json" ∧
      call.contentType = "application/json" ∧
      call.cacheControl = "no-cache, no-store, must-revalidate" ∧
      call.body = renderState (s.counter.getD 0) (publishedMessages s) ∧
      publishedMessages s = (queryRecentMessages s).map
        (fun it => { id := extractId it.sk, text := it.text,
                     createdAt := it.createdAt }) ∧
      (queryRecentMessages s).length ≤ 5 ∧
      List.Pairwise skGE (queryRecentMessages s) ∧
      (∀ m ∈ queryRecentMessages s, m ∈ s.messages) ∧
      (∀ m ∈ s.messages, m ∉ queryRecentMessages s →
        ∀ x ∈ queryRecentMessages s, strLe m.sk x.sk = true) := by
  refine ⟨_, _, rfl, rfl, rfl, rfl, rfl, rfl, ?_, ?_, ?_, ?_⟩
  · exact List.length_take_le 5 _
  · exact List.Pairwise.sublist (List.take_sublist 5 _)
      (List.sorted_insertionSort skGE s.messages)
  · intro m hm
    exact (List.perm_insertionSort skGE s.messages).subset
      ((List.take_sublist 5 _).subset hm)
  · intro m hm hnot x hx
    have hmem : m ∈ List.insertionSort skGE s.messages :=
      ((List.perm_insertionSort skGE s.messages).mem_iff).mpr hm
    have hsplit := List.take_append_drop 5 (List.insertionSort skGE s.messages)
    have hdrop : m ∈ (List.insertionSort skGE s.messages).drop 5 := by
      rcases List.mem_append.mp (hsplit ▸ hmem) with h | h
      · exact absurd h hnot
      · exact h
    have hpw : List.Pairwise skGE
        ((List.insertionSort skGE s.messages).take 5 ++
         (List.insertionSort skGE s.messages).drop 5) := by
      rw [hsplit]
      exact List.sorted_insertionSort skGE s.messages
    exact (List.pairwise_append.mp hpw).2.2 x hx m hdrop

/-- Witness for C3 at a concrete store with two messages and counter 7. -/
theorem claim3_snapshot_content_witness :
    ∃ call ret,
      (snapshotHandler .null ⟨some 7, [⟨"t1#a", "m1", "t1"⟩, ⟨"t2#b", "m2", "t2"⟩]⟩
          ⟨true, true, true⟩).1 = .ok (call, ret) ∧
      call.key = "state.json" ∧
      call.contentType = "application/json" ∧
      call.cacheControl = "no-cache, no-store, must-revalidate" ∧
      call.body = renderState ((some (7 : Int)).getD 0)
        (publishedMessages ⟨some 7, [⟨"t1#a", "m1", "t1"⟩, ⟨"t2#b", "m2", "t2"⟩]⟩) ∧
      publishedMessages ⟨some 7, [⟨"t1#a", "m1", "t1"⟩, ⟨"t2#b", "m2", "t2"⟩]⟩ =
        (queryRecentMessages ⟨some 7, [⟨"t1#a", "m1", "t1"⟩, ⟨"t2#b", "m2", "t2"⟩]⟩).map
          (fun it => { id := extractId it.sk, text := it.text,
                       createdAt := it.createdAt }) ∧
      (queryRecentMessages ⟨some 7, [⟨"t1#a", "m1", "t1"⟩, ⟨"t2#b", "m2", "t2"⟩]⟩).length ≤ 5 ∧
      List.Pairwise skGE
        (queryRecentMessages ⟨some 7, [⟨"t1#a", "m1", "t1"⟩, ⟨"t2#b", "m2", "t2"⟩]⟩) ∧
      (∀ m ∈ queryRecentMessages ⟨some 7, [⟨"t1#a", "m1", "t1"⟩, ⟨"t2#b", "m2", "t2"⟩]⟩,
        m ∈ [⟨"t1#a", "m1", "t1"⟩, (⟨"t2#b", "m2", "t2"⟩ : MessageItem)]) ∧
      (∀ m ∈ [⟨"t1#a", "m1", "t1"⟩, (⟨"t2#b", "m2", "t2"⟩ : MessageItem)],
        m ∉ queryRecentMessages ⟨some 7, [⟨"t1#a", "m1", "t1"⟩, ⟨"t2#b", "m2", "t2"⟩]⟩ →
        ∀ x ∈ queryRecentMessages ⟨some 7, [⟨"t1#a", "m1", "t1"⟩, ⟨"t2#b", "m2", "t2"⟩]⟩,
          strLe m.sk x.sk = true) :=
  claim3_snapshot_content .null ⟨some 7, [⟨"t1#a", "m1", "t1"⟩, ⟨"t2#b", "m2", "t2"⟩]⟩

/-! ### Split lemmas for the id extraction -/

theorem splitChar_not_mem (sep : Char) (l : List Char) (h : sep ∉ l) :
    splitChar sep l = [l] := by
  induction l with
  | nil => rfl
  | cons c cs ih =>
    have hc : ¬ c = sep := fun hh => h (hh ▸ List.mem_cons_self c cs)
    have hcs : sep ∉ cs := fun hh => h (List.mem_cons_of_mem c hh)
    simp only [splitChar, if_neg hc, ih hcs]

theorem splitChar_sep_append (sep : Char) (a rest : List Char) (h : sep ∉ a) :
    splitChar sep (a ++ sep :: rest) = a :: splitChar sep rest := by
  induction a with
  | nil => simp [splitChar]
  | cons c cs ih =>
    have hc : ¬ c = sep := fun hh => h (hh ▸ List.mem_cons_self c cs)
    have hcs : sep ∉ cs := fun hh => h (List.mem_cons_of_mem c hh)
    simp only [List.cons_append, splitChar, if_neg hc, List.append_eq, ih hcs]

/-- C4 counterexample: for the sort key `2024#abc#def`, which contains two
delimiters, the code yields id `abc` (the second split component), not
`abc#def` (everything after the first delimiter) as the claim states. -/
theorem claim4_counterexample :
    extractId "2024#abc#def" = "abc" ∧ extractId "2024#abc#def" ≠ "abc#def" := by
  exact ⟨by decide, by decide⟩

/-- C4 amended: the Snapshot Builder derives the published `id` by splitting
the sort key on `#` and taking the second split component — for a key with
two or more delimiters this is the text strictly between the first and the
second delimiter, not everything after the first delimiter; with exactly one
delimiter it is everything after it; with no delimiter the whole key is
used. -/
theorem claim4_extract_id_amended (a b c : String)
    (ha : '#' ∉ a.toList) (hb : '#' ∉ b.toList) :
    extractId (a ++ "#" ++ b) = b ∧
    extractId (a ++ "#" ++ b ++ "#" ++ c) = b ∧
    extractId a = a := by
  have hone : (a ++ "#" ++ b).toList = a.toList ++ '#' :: b.toList := by
    show (a ++ "#" ++ b).data = a.data ++ '#' :: b.data
    simp [String.data_append]
  have htwo : (a ++ "#" ++ b ++ "#" ++ c).toList =
      a.toList ++ '#' :: (b.toList ++ '#' :: c.toList) := by
    show (a ++ "#" ++ b ++ "#" ++ c).data =
      a.data ++ '#' :: (b.data ++ '#' :: c.data)
    simp [String.data_append]
  refine ⟨?_, ?_, ?_⟩
  · have hm : '#' ∈ (a ++ "#" ++ b).toList := by
      rw [hone]; exact List.mem_append_right _ (List.mem_cons_self _ _)
    rw [extractId, if_pos hm, hone, splitChar_sep_append '#' a.toList b.toList ha,
      splitChar_not_mem '#' b.toList hb]
    rfl
  · have hm : '#' ∈ (a ++ "#" ++ b ++ "#" ++ c).toList := by
      rw [htwo]; exact List.mem_append_right _ (List.mem_cons_self _ _)
    rw [extractId, if_pos hm, htwo, splitChar_sep_append '#' a.toList _ ha,
      splitChar_sep_append '#' b.toList _ hb]
    rfl
  · rw [extractId, if_neg ha]

/-- Witness for the amended C4 at concrete sort keys. -/
theorem claim4_extract_id_amended_witness :
    extractId ("2024" ++ "#" ++ "abc") = "abc" ∧
    extractId ("2024" ++ "#" ++ "abc" ++ "#" ++ "def") = "abc" ∧
    extractId "2024" = "2024" :=
  claim4_extract_id_amended "2024" "abc" "def" (by decide) (by decide)

/-! ### Case analysis helpers for the counter invariant -/

/-- Every run of the Ingest Handler either rejects the request before any
side effect (store unchanged, empty trace) or reaches the three-step write
sequence with some trimmed text. -/
theorem apiHandler_cases (ev : ApiEvent) (messageId timestamp : String)
    (s : Store) (eff : EffectOutcomes) :
    ((apiHandler ev messageId timestamp s eff).2.1 = s ∧
     (apiHandler ev messageId timestamp s eff).2.2 = []) ∨
    ∃ mt, apiHandler ev messageId timestamp s eff =
      apiHandlerValid mt messageId timestamp s eff := by
  rcases ev with ⟨method, bodyParse⟩
  by_cases h1 : method = some "OPTIONS"
  · left; simp [apiHandler, h1]
  · by_cases h2 : method.getD "" = "POST"
    · cases bodyParse with
      | error u => left; simp [apiHandler, h1, h2]
      | ok body =>
        cases body with
        | null => left; simp [apiHandler, h1, h2]
        | bool b => left; simp [apiHandler, h1, h2]
        | num n => left; simp [apiHandler, h1, h2]
        | str v => left; simp [apiHandler, h1, h2]
        | arr xs => left; simp [apiHandler, h1, h2]
        | obj fields =>
          cases hlk : fields.lookup "text" with
          | none => left; simp [apiHandler, h1, h2, hlk]
          | some v =>
            cases v with
            | str t =>
              by_cases h3 : pyStrip t = ""
              · left; simp [apiHandler, h1, h2, hlk, h3]
              · by_cases h4 : (pyStrip t).length > 500
                · left; simp [apiHandler, h1, h2, hlk, h3, h4]
                · right
                  exact ⟨pyStrip t, by simp [apiHandler, h1, h2, hlk, h3, h4]⟩
            | null => left; simp [apiHandler, h1, h2, hlk]
            | bool b => left; simp [apiHandler, h1, h2, hlk]
            | num n => left; simp [apiHandler, h1, h2, hlk]
            | arr xs => left; simp [apiHandler, h1, h2, hlk]
            | obj fs => left; simp [apiHandler, h1, h2, hlk]
    · left; simp [apiHandler, h1, h2]

/-- The write sequence either performs the counter increment (counter becomes
its old default-0 value plus 1 and the increment effect is traced) or fails
before it (store unchanged, empty trace). -/
theorem apiHandlerValid_counter (mt messageId timestamp : String)
    (s : Store) (eff : EffectOutcomes) :
    ((apiHandlerValid mt messageId timestamp s eff).2.1.counter =
        some (s.counter.getD 0 + 1) ∧
      Effect.incrCounter ∈ (apiHandlerValid mt messageId timestamp s eff).2.2) ∨
    ((apiHandlerValid mt messageId timestamp s eff).2.1 = s ∧
      (apiHandlerValid mt messageId timestamp s eff).2.2 = []) := by
  unfold apiHandlerValid
  rcases eff with ⟨i, p, n⟩
  cases i
  · right; simp
  · left; cases p <;> cases n <;> simp

/-- C8: the counter invariant.  Under the assumption that the current counter
value is non-negative, after any Ingest Handler run the counter is still
non-negative; it is either unchanged or exactly the old (default 0) value
plus 1, and it is incremented exactly when the increment call appears in the
trace — so exactly 1 per accepted message and 0 for every rejected request,
with a missing counter initialized to 0 before the first increment.  The
Snapshot Builder never writes the store, so only the Ingest Handler ever
mutates the counter. -/
theorem claim8_counter_invariant (ev : ApiEvent) (messageId timestamp : String)
    (s : Store) (eff : EffectOutcomes)
    (hnn : ∀ n, s.counter = some n → 0 ≤ n) :
    (∀ n, (apiHandler ev messageId timestamp s eff).2.1.counter = some n → 0 ≤ n) ∧
    ((apiHandler ev messageId timestamp s eff).2.1.counter = s.counter ∨
      (apiHandler ev messageId timestamp s eff).2.1.counter =
        some (s.counter.getD 0 + 1)) ∧
    (Effect.incrCounter ∈ (apiHandler ev messageId timestamp s eff).2.2 ↔
      (apiHandler ev messageId timestamp s eff).2.1.counter =
        some (s.counter.getD 0 + 1)) ∧
    (∀ (e : Json) (o : SnapshotOutcome), (snapshotHandler e s o).2 = s) := by
  have hdefault : (0 : Int) ≤ s.counter.getD 0 + 1 := by
    cases hc : s.counter with
    | none => simp
    | some k => have := hnn k hc; simp; omega
  have hnotself : ¬ s.counter = some (s.counter.getD 0 + 1) := by
    cases hc : s.counter with
    | none => simp
    | some k => simp
  rcases apiHandler_cases ev messageId timestamp s eff with ⟨hst, htr⟩ | ⟨mt, heq⟩
  · refine ⟨?_, Or.inl (by rw [hst]), ?_, fun e o => snapshotHandler_reads_only e s o⟩
    · intro n hn
      rw [hst] at hn
      exact hnn n hn
    · rw [hst, htr]
      constructor
      · intro h
        exact absurd h (List.not_mem_nil _)
      · intro h
        exact absurd h hnotself
  · rw [heq]
    rcases apiHandlerValid_counter mt messageId timestamp s eff with
      ⟨hc, hm⟩ | ⟨hst, htr⟩
    · refine ⟨?_, Or.inr hc, ⟨fun _ => hc, fun _ => hm⟩,
        fun e o => snapshotHandler_reads_only e s o⟩
      intro n hn
      rw [hc] at hn
      injection hn with hn
      omega
    · refine ⟨?_, Or.inl (by rw [hst]), ?_, fun e o => snapshotHandler_reads_only e s o⟩
      · intro n hn
        rw [hst] at hn
        exact hnn n hn
      · rw [hst, htr]
        constructor
        · intro h
          exact absurd h (List.not_mem_nil _)
        · intro h
          exact absurd h hnotself

/-- Witness for C8 at a concrete accepted request over an absent counter. -/
theorem claim8_counter_invariant_witness :
    (∀ n, (apiHandler ⟨some "POST", .ok (.obj [("text", .str "yo")])⟩ "m" "T"
        ⟨none, []⟩ ⟨true, true, true⟩).2.1.counter = some n → 0 ≤ n) ∧
    ((apiHandler ⟨some "POST", .ok (.obj [("text", .str "yo")])⟩ "m" "T"
        ⟨none, []⟩ ⟨true, true, true⟩).2.1.counter = (none : Option Int) ∨
      (apiHandler ⟨some "POST", .ok (.obj [("text", .str "yo")])⟩ "m" "T"
        ⟨none, []⟩ ⟨true, true, true⟩).2.1.counter =
        some ((none : Option Int).getD 0 + 1)) ∧
    (Effect.incrCounter ∈ (apiHandler ⟨some "POST", .ok (.obj [("text", .str "yo")])⟩
        "m" "T" ⟨none, []⟩ ⟨true, true, true⟩).2.2 ↔
      (apiHandler ⟨some "POST", .ok (.obj [("text", .str "yo")])⟩ "m" "T"
        ⟨none, []⟩ ⟨true, true, true⟩).2.1.counter =
        some ((none : Option Int).getD 0 + 1)) ∧
    (∀ (e : Json) (o : SnapshotOutcome),
      (snapshotHandler e ⟨none, []⟩ o).2 = ⟨none, []⟩) :=
  claim8_counter_invariant ⟨some "POST", .ok (.obj [("text", .str "yo")])⟩
    "m" "T" ⟨none, []⟩ ⟨true, true, true⟩ (by intro n hn; cases hn)

end MessageWall
